import Mathlib

/-!
Verification of the credit-ledger and subscription-reconciliation core of the
aifyinteriors application.

The embedding below follows the TypeScript source:
* the credits module (`deductCredits`, `refundCredits`, `addCredits`,
  `resetMonthlyCredits`, `checkAndResetMonthlyCredits`, `daysSince`), and
* the Stripe webhook handlers (`handleCheckoutSessionCompleted`,
  `handleSubscriptionUpdated`, `handleSubscriptionDeleted`).

The database row for a user is modelled as a `User` record; append-only credit
transaction rows are modelled as `CreditTransaction` values returned by each
operation (an operation that creates no row returns `none` / an empty list).
JavaScript numbers holding credit amounts are modelled as `Int` (the source
performs no positivity validation, so negative amounts are representable).
Timestamps are milliseconds since the epoch, modelled as `Nat`.
-/

namespace Aify

/-- The `users` row fields that the credits module and the webhook handlers
read or write. `updatedAt` is omitted: it is a wall-clock timestamp set on
every write and no claim mentions it. -/
structure User where
  id : Nat
  creditsBalance : Int
  creditsUsedThisMonth : Int
  tier : String
  subscriptionStatus : String
  stripeCustomerId : Option String
  stripeSubscriptionId : Option String
  currentPeriodEnd : Option Nat
  monthlyResetDate : Option Nat
  deriving Repr, DecidableEq

/-- One row of the append-only `credit_transactions` table, as created by
`storage.createCreditTransaction`. Optional foreign keys (`designId`,
`stripePaymentIntentId`) are omitted: no claim mentions them. -/
structure CreditTransaction where
  userId : Nat
  type : String
  amount : Int
  balanceAfter : Int
  description : String
  deriving Repr, DecidableEq

/-- The failure `deductCredits` signals when the balance is too low.  The
source throws `Error("Insufficient credits. You have X credits but need Y...")`;
the two interpolated values are modelled as the error's payload. -/
inductive CreditError where
  | insufficientCredits (currentBalance required : Int)
  deriving Repr, DecidableEq

/-- `deductCredits(userId, amount, description)` from the credits module.
Reads the row (modelled by taking `u` directly; the user-not-found throw is
outside the embedding since every claim quantifies over existing accounts),
rejects when `currentBalance < amount`, otherwise writes
`creditsBalance = currentBalance - amount` and
`creditsUsedThisMonth += amount` and creates one `"usage"` transaction with
`amount = -amount` and `balanceAfter = newBalance`, returning it. -/
def deductCredits (u : User) (amount : Int) (description : String) :
    Except CreditError (User × CreditTransaction) :=
  let currentBalance := u.creditsBalance
  if currentBalance < amount then
    .error (.insufficientCredits currentBalance amount)
  else
    let newBalance := currentBalance - amount
    let u' : User :=
      { u with creditsBalance := newBalance,
               creditsUsedThisMonth := u.creditsUsedThisMonth + amount }
    .ok (u', { userId := u.id, type := "usage", amount := -amount,
               balanceAfter := newBalance, description := description })

/-- `refundCredits(userId, designId, amount)` from the credits module.
Always succeeds: `creditsBalance += amount`,
`creditsUsedThisMonth = max(0, creditsUsedThisMonth - amount)`, and one
`"refund"` transaction with positive `amount` and
`balanceAfter = newBalance`. -/
def refundCredits (u : User) (designId : Nat) (amount : Int) :
    User × CreditTransaction :=
  let newBalance := u.creditsBalance + amount
  let u' : User :=
    { u with creditsBalance := newBalance,
             creditsUsedThisMonth := max 0 (u.creditsUsedThisMonth - amount) }
  (u', { userId := u.id, type := "refund", amount := amount,
         balanceAfter := newBalance,
         description := "Refund for failed design generation (ID: " ++
           toString designId ++ ")" })

/-- `addCredits(userId, amount, description)` from the credits module.
Always succeeds: `creditsBalance += amount` (note: `creditsUsedThisMonth` is
NOT written by this function in the source), and one `"purchase"` transaction
with positive `amount` and `balanceAfter = newBalance`. -/
def addCredits (u : User) (amount : Int) (description : String) :
    User × CreditTransaction :=
  let newBalance := u.creditsBalance + amount
  let u' : User := { u with creditsBalance := newBalance }
  (u', { userId := u.id, type := "purchase", amount := amount,
         balanceAfter := newBalance, description := description })

/-- `FREE_TIER_MONTHLY_CREDITS` from `resetMonthlyCredits`. -/
def FREE_TIER_MONTHLY_CREDITS : Int := 3

/-- `resetMonthlyCredits(userId)` from the credits module, with the wall-clock
`new Date()` passed explicitly as `now`.  Skips non-free tiers; otherwise sets
`creditsBalance = 3`, `creditsUsedThisMonth = 0`, `monthlyResetDate = now` and
creates one `"monthly_reset"` transaction. -/
def resetMonthlyCredits (now : Nat) (u : User) :
    User × Option CreditTransaction :=
  if u.tier ≠ "free" then (u, none)
  else
    ({ u with creditsBalance := FREE_TIER_MONTHLY_CREDITS,
              creditsUsedThisMonth := 0,
              monthlyResetDate := some now },
     some { userId := u.id, type := "monthly_reset",
            amount := FREE_TIER_MONTHLY_CREDITS,
            balanceAfter := FREE_TIER_MONTHLY_CREDITS,
            description := "Monthly credit reset for free tier" })

/-- `daysSince(date)` from the credits module:
`Math.ceil(|now - date| / (1000*60*60*24))` with both instants in
milliseconds. -/
def daysSince (now date : Nat) : Nat :=
  (Nat.dist now date + 86399999) / 86400000

/-- `checkAndResetMonthlyCredits(userId)` from the credits module, with the
wall-clock passed explicitly.  Returns unchanged for non-free tiers; resets
when there is no `monthlyResetDate` or the last reset is at least 30 days
old. -/
def checkAndResetMonthlyCredits (now : Nat) (u : User) :
    User × Option CreditTransaction :=
  if u.tier ≠ "free" then (u, none)
  else
    match u.monthlyResetDate with
    | none => resetMonthlyCredits now u
    | some lastReset =>
      if daysSince now lastReset ≥ 30 then resetMonthlyCredits now u
      else (u, none)

/-- The fields of a `Stripe.Subscription` payload read by
`handleSubscriptionUpdated` and `handleSubscriptionDeleted`:
`metadata.userId`, `status`, `cancel_at_period_end`, `current_period_end`. -/
structure SubscriptionEvent where
  metadataUserId : Option Nat
  status : String
  cancel_at_period_end : Bool
  current_period_end : Nat
  deriving Repr, DecidableEq

/-- The fields of a `Stripe.Checkout.Session` payload read by
`handleCheckoutSessionCompleted`: `metadata.userId`, `metadata.tier`,
`customer`, `subscription`. -/
structure CheckoutSession where
  metadataUserId : Option Nat
  metadataTier : Option String
  customer : String
  subscription : Option String
  deriving Repr, DecidableEq

/-- `handleSubscriptionUpdated` from the webhook module, restricted to its
effect on the `users` row (it also refreshes the separate `subscriptions`
record, which no claim mentions).  Missing `metadata.userId` returns without
mutating.  Otherwise `canceled`/`unpaid` maps to `cancelled`/`free`,
`past_due` keeps the tier, anything else (including
`cancel_at_period_end = true`) stays `active` with the tier unchanged;
`currentPeriodEnd` is taken from the event.  The function creates no
credit-transaction row, hence the empty list. -/
def handleSubscriptionUpdated (u : User) (s : SubscriptionEvent) :
    User × List CreditTransaction :=
  match s.metadataUserId with
  | none => (u, [])
  | some _ =>
    let newStatus : String :=
      if s.status = "canceled" ∨ s.status = "unpaid" then "cancelled"
      else if s.status = "past_due" then "past_due"
      else if s.cancel_at_period_end then "active"
      else "active"
    let newTier : String :=
      if s.status = "canceled" ∨ s.status = "unpaid" then "free" else u.tier
    ({ u with tier := newTier, subscriptionStatus := newStatus,
              currentPeriodEnd := some s.current_period_end }, [])

/-- `handleSubscriptionDeleted` from the webhook module, restricted to its
effect on the `users` row.  With `metadata.userId` present it
unconditionally writes `tier = "free"`, `subscriptionStatus = "cancelled"`,
`creditsBalance = 3`, `stripeSubscriptionId = null`,
`currentPeriodEnd = null`.  The function creates no credit-transaction row,
hence the empty list. -/
def handleSubscriptionDeleted (u : User) (s : SubscriptionEvent) :
    User × List CreditTransaction :=
  match s.metadataUserId with
  | none => (u, [])
  | some _ =>
    ({ u with tier := "free", subscriptionStatus := "cancelled",
              creditsBalance := 3, stripeSubscriptionId := none,
              currentPeriodEnd := none }, [])

/-- `handleCheckoutSessionCompleted` from the webhook module.  Throws
(modelled as `Except.error`) when `metadata.userId`, `metadata.tier` or the
subscription id is missing; otherwise writes the tier from the metadata,
`subscriptionStatus = "active"` and both Stripe references.  No
credit-transaction row is created. -/
def handleCheckoutSessionCompleted (u : User) (s : CheckoutSession) :
    Except String (User × List CreditTransaction) :=
  match s.metadataUserId, s.metadataTier with
  | some _, some tier =>
    match s.subscription with
    | none => .error "No subscription ID in checkout session"
    | some subscriptionId =>
      .ok ({ u with tier := tier, subscriptionStatus := "active",
                    stripeCustomerId := some s.customer,
                    stripeSubscriptionId := some subscriptionId }, [])
  | _, _ => .error "Missing required metadata in checkout session"

/-- The fields of a `Stripe.Invoice` payload read by
`handleInvoicePaymentSucceeded` and `handleInvoicePaymentFailed`:
`subscription` and `customer`. -/
structure Invoice where
  subscription : Option String
  customer : String
  deriving Repr, DecidableEq

/-- `handleSubscriptionCreated` from the webhook module, restricted to its
effect on the `users` row: it reads the metadata and writes only a record
in the separate `subscriptions` table (`storage.createSubscription`), never
any column of `users`, so on the account it is the identity. -/
def handleSubscriptionCreated (u : User) (_s : SubscriptionEvent) : User := u

/-- `handleInvoicePaymentSucceeded` from the webhook module: the body only
logs — "No action needed - subscription.updated event will handle any
changes" — so it mutates nothing. -/
def handleInvoicePaymentSucceeded (u : User) (_invoice : Invoice) : User := u

/-- `handleInvoicePaymentFailed` from the webhook module.  Skips invoices
without a subscription id; otherwise looks the user up by
`stripeCustomerId = invoice.customer` (modelled on the single row `u`:
mismatch means the lookup finds nothing and the handler returns) and
writes `subscriptionStatus = "past_due"`.  Tier and balance are
untouched and no credit-transaction row is created. -/
def handleInvoicePaymentFailed (u : User) (invoice : Invoice) : User :=
  match invoice.subscription with
  | none => u
  | some _ =>
    if u.stripeCustomerId = some invoice.customer then
      { u with subscriptionStatus := "past_due" }
    else u

/-- The six event types of `handleStripeWebhook`'s switch, plus its
default case for any other event type (logged and ignored). -/
inductive BillingEvent where
  | checkoutSessionCompleted (session : CheckoutSession)
  | subscriptionCreated (subscription : SubscriptionEvent)
  | subscriptionUpdated (subscription : SubscriptionEvent)
  | subscriptionDeleted (subscription : SubscriptionEvent)
  | invoicePaymentSucceeded (invoice : Invoice)
  | invoicePaymentFailed (invoice : Invoice)
  | unhandled (eventType : String)
  deriving Repr, DecidableEq

/-- Dispatch of one webhook event to its handler, as in
`handleStripeWebhook`'s switch, restricted to the `users` row.  A handler
that throws leaves the row unchanged (the endpoint answers 500 and mutates
nothing); the default case of the switch only logs. -/
def processEvent (u : User) (e : BillingEvent) : User :=
  match e with
  | .checkoutSessionCompleted s =>
    match handleCheckoutSessionCompleted u s with
    | .ok (u', _) => u'
    | .error _ => u
  | .subscriptionCreated s => handleSubscriptionCreated u s
  | .subscriptionUpdated s => (handleSubscriptionUpdated u s).1
  | .subscriptionDeleted s => (handleSubscriptionDeleted u s).1
  | .invoicePaymentSucceeded invoice => handleInvoicePaymentSucceeded u invoice
  | .invoicePaymentFailed invoice => handleInvoicePaymentFailed u invoice
  | .unhandled _ => u

/-- Replaying the same event `n` times. -/
def processEventN : Nat → User → BillingEvent → User
  | 0, u, _ => u
  | n + 1, u, e => processEventN n (processEvent u e) e

/-- C1: when the current balance is strictly below the requested amount,
`deductCredits` fails with the insufficient-credits error carrying the
current balance and the required amount, and returns no updated account row
and no transaction — nothing is mutated and no ledger entry is appended. -/
theorem c1_insufficient_balance_aborts (u : User) (amount : Int)
    (description : String) (h : u.creditsBalance < amount) :
    deductCredits u amount description =
      .error (.insufficientCredits u.creditsBalance amount) := by
  simp [deductCredits, h]

/-- Witness for C1: `debit(amount=5)` on balance 3 fails with the error
carrying 3 and 5. -/
theorem c1_insufficient_balance_aborts_witness :
    (⟨1, 3, 0, "free", "active", none, none, none, none⟩ : User).creditsBalance
        < 5 ∧
    deductCredits ⟨1, 3, 0, "free", "active", none, none, none, none⟩ 5
        "Design generation" =
      .error (.insufficientCredits 3 5) :=
  ⟨by decide,
   c1_insufficient_balance_aborts
     ⟨1, 3, 0, "free", "active", none, none, none, none⟩ 5
     "Design generation" (by decide)⟩

/-- C2: a successful debit (`amount ≤ balance`, positive amount) sets the
balance to `balance - amount`, increments `creditsUsedThisMonth` by the
amount, and returns exactly one `"usage"` transaction whose `amount` (delta)
is `-amount` and whose `balanceAfter` is the new balance. -/
theorem c2_successful_debit (u : User) (amount : Int) (description : String)
    (hle : amount ≤ u.creditsBalance) (hpos : 0 < amount) :
    deductCredits u amount description =
      .ok ({ u with creditsBalance := u.creditsBalance - amount,
                    creditsUsedThisMonth := u.creditsUsedThisMonth + amount },
           { userId := u.id, type := "usage", amount := -amount,
             balanceAfter := u.creditsBalance - amount,
             description := description }) := by
  simp [deductCredits, not_lt.mpr hle]

/-- Witness for C2: debiting 1 from balance 3 yields balance 2, usage entry
with delta -1 and balanceAfter 2. -/
theorem c2_successful_debit_witness :
    (1 : Int) ≤
        (⟨1, 3, 0, "free", "active", none, none, none, none⟩ :
          User).creditsBalance ∧
    (0 : Int) < 1 ∧
    deductCredits ⟨1, 3, 0, "free", "active", none, none, none, none⟩ 1
        "Design generation" =
      .ok (⟨1, 2, 1, "free", "active", none, none, none, none⟩,
           ⟨1, "usage", -1, 2, "Design generation"⟩) :=
  ⟨by decide, by decide,
   c2_successful_debit ⟨1, 3, 0, "free", "active", none, none, none, none⟩ 1
     "Design generation" (by decide) (by decide)⟩

/-- C10: `deductCredits` performs no positivity validation on the amount:
any integer amount with `amount ≤ balance` — zero and negative amounts
included — succeeds, the new balance is `balance - amount` (so a negative
amount strictly increases the balance), and the recorded `"usage"`
transaction has delta `-amount`, which is then non-negative. -/
theorem c10_no_positivity_validation (u : User) (amount : Int)
    (description : String) (hle : amount ≤ u.creditsBalance) :
    ∃ u' tx, deductCredits u amount description = .ok (u', tx) ∧
      u'.creditsBalance = u.creditsBalance - amount ∧
      tx.type = "usage" ∧ tx.amount = -amount ∧
      (amount < 0 → u.creditsBalance < u'.creditsBalance) ∧
      (amount ≤ 0 → 0 ≤ tx.amount) := by
  refine ⟨{ u with creditsBalance := u.creditsBalance - amount,
                   creditsUsedThisMonth := u.creditsUsedThisMonth + amount },
          { userId := u.id, type := "usage", amount := -amount,
            balanceAfter := u.creditsBalance - amount,
            description := description },
          ?_, rfl, rfl, rfl, ?_, ?_⟩
  · simp [deductCredits, not_lt.mpr hle]
  · intro hneg
    show u.creditsBalance < u.creditsBalance - amount
    omega
  · intro hnp
    show (0 : Int) ≤ -amount
    omega

/-- Witness for C10: a debit of -2 on balance 3 succeeds and raises the
balance to 5. -/
theorem c10_no_positivity_validation_witness :
    (-2 : Int) ≤
        (⟨1, 3, 0, "free", "active", none, none, none, none⟩ :
          User).creditsBalance ∧
    ∃ u' tx,
      deductCredits ⟨1, 3, 0, "free", "active", none, none, none, none⟩ (-2)
          "Design generation" = .ok (u', tx) ∧
      u'.creditsBalance =
        (⟨1, 3, 0, "free", "active", none, none, none, none⟩ :
          User).creditsBalance - (-2) ∧
      tx.type = "usage" ∧ tx.amount = -(-2) ∧
      ((-2 : Int) < 0 →
        (⟨1, 3, 0, "free", "active", none, none, none, none⟩ :
          User).creditsBalance < u'.creditsBalance) ∧
      ((-2 : Int) ≤ 0 → 0 ≤ tx.amount) :=
  ⟨by decide,
   c10_no_positivity_validation
     ⟨1, 3, 0, "free", "active", none, none, none, none⟩ (-2)
     "Design generation" (by decide)⟩

/-- C5: with `metadata.userId` present, a subscription-deleted event
unconditionally — whatever the prior tier, status, balance, references or
period end — moves the row to `cancelled`/`free`, clears
`stripeSubscriptionId` and `currentPeriodEnd`, and resets the balance
to the free-tier grant 3.  (It creates no credit-transaction row.) -/
theorem c5_subscription_deleted_resets (u : User) (s : SubscriptionEvent)
    (uid : Nat) (hm : s.metadataUserId = some uid) :
    handleSubscriptionDeleted u s =
      ({ u with tier := "free", subscriptionStatus := "cancelled",
                creditsBalance := 3, stripeSubscriptionId := none,
                currentPeriodEnd := none }, []) := by
  simp [handleSubscriptionDeleted, hm]

/-- Witness for C5: an `active`/`professional` account with balance 42 is
moved to `cancelled`/`free` with balance 3 and cleared references. -/
theorem c5_subscription_deleted_resets_witness :
    (⟨some 7, "canceled", false, 0⟩ : SubscriptionEvent).metadataUserId =
        some 7 ∧
    handleSubscriptionDeleted
        ⟨7, 42, 9, "professional", "active", some "cus_1", some "sub_1",
         some 1700000000000, none⟩
        ⟨some 7, "canceled", false, 0⟩ =
      (⟨7, 3, 9, "free", "cancelled", some "cus_1", none, none, none⟩, []) :=
  ⟨rfl,
   c5_subscription_deleted_resets
     ⟨7, 42, 9, "professional", "active", some "cus_1", some "sub_1",
      some 1700000000000, none⟩
     ⟨some 7, "canceled", false, 0⟩ 7 rfl⟩

/-- Counterexample to C4: a subscription-updated event with status
`canceled` on a `basic` account holding 7 credits moves it to
`cancelled`/`free` but leaves the balance at 7 — it is NOT reset to the
free-tier grant 3, contradicting the claim. -/
theorem c4_counterexample :
    (handleSubscriptionUpdated
        ⟨2, 7, 4, "basic", "active", some "cus_2", some "sub_2",
         some 1700000000000, none⟩
        ⟨some 2, "canceled", false, 1700000500000⟩).1.subscriptionStatus =
      "cancelled" ∧
    (handleSubscriptionUpdated
        ⟨2, 7, 4, "basic", "active", some "cus_2", some "sub_2",
         some 1700000000000, none⟩
        ⟨some 2, "canceled", false, 1700000500000⟩).1.tier = "free" ∧
    (handleSubscriptionUpdated
        ⟨2, 7, 4, "basic", "active", some "cus_2", some "sub_2",
         some 1700000000000, none⟩
        ⟨some 2, "canceled", false, 1700000500000⟩).1.creditsBalance = 7 ∧
    ¬ (handleSubscriptionUpdated
        ⟨2, 7, 4, "basic", "active", some "cus_2", some "sub_2",
         some 1700000000000, none⟩
        ⟨some 2, "canceled", false, 1700000500000⟩).1.creditsBalance =
      FREE_TIER_MONTHLY_CREDITS := by
  refine ⟨?_, ?_, ?_, ?_⟩ <;> decide

/-- C4 amended: with `metadata.userId` present, a subscription-updated
event whose status is `canceled` or `unpaid` transitions the row to
subscriptionStatus `cancelled` with tier `free`, but leaves the balance
unchanged (the handler never writes `creditsBalance`). -/
theorem c4_cancellation_keeps_balance (u : User) (s : SubscriptionEvent)
    (uid : Nat) (hm : s.metadataUserId = some uid)
    (hs : s.status = "canceled" ∨ s.status = "unpaid") :
    (handleSubscriptionUpdated u s).1.subscriptionStatus = "cancelled" ∧
    (handleSubscriptionUpdated u s).1.tier = "free" ∧
    (handleSubscriptionUpdated u s).1.creditsBalance = u.creditsBalance := by
  simp only [handleSubscriptionUpdated, hm]
  rw [if_pos hs, if_pos hs]
  simp

/-- Witness for C4 amended: status `unpaid` on balance 7 gives
`cancelled`/`free` and balance still 7. -/
theorem c4_cancellation_keeps_balance_witness :
    (⟨some 2, "unpaid", false, 0⟩ : SubscriptionEvent).metadataUserId =
        some 2 ∧
    ((⟨some 2, "unpaid", false, 0⟩ : SubscriptionEvent).status = "canceled" ∨
      (⟨some 2, "unpaid", false, 0⟩ : SubscriptionEvent).status = "unpaid") ∧
    ((handleSubscriptionUpdated
        ⟨2, 7, 4, "basic", "active", none, some "sub_2", none, none⟩
        ⟨some 2, "unpaid", false, 0⟩).1.subscriptionStatus = "cancelled" ∧
      (handleSubscriptionUpdated
        ⟨2, 7, 4, "basic", "active", none, some "sub_2", none, none⟩
        ⟨some 2, "unpaid", false, 0⟩).1.tier = "free" ∧
      (handleSubscriptionUpdated
        ⟨2, 7, 4, "basic", "active", none, some "sub_2", none, none⟩
        ⟨some 2, "unpaid", false, 0⟩).1.creditsBalance =
        (⟨2, 7, 4, "basic", "active", none, some "sub_2", none, none⟩ :
          User).creditsBalance) :=
  ⟨rfl, by decide,
   c4_cancellation_keeps_balance
     ⟨2, 7, 4, "basic", "active", none, some "sub_2", none, none⟩
     ⟨some 2, "unpaid", false, 0⟩ 2 rfl (by decide)⟩

/-- Counterexample to C3: the subscription-deleted handler changes the
account's balance (here from 7 to 3) yet appends no credit-transaction row
at all — the source contains no `createCreditTransaction` call — so not
every balance-changing operation appends a ledger entry. -/
theorem c3_counterexample :
    ¬ (handleSubscriptionDeleted
        ⟨3, 7, 0, "professional", "active", some "cus_3", some "sub_3",
         some 1700000000000, none⟩
        ⟨some 3, "canceled", false, 0⟩).1.creditsBalance =
      (⟨3, 7, 0, "professional", "active", some "cus_3", some "sub_3",
        some 1700000000000, none⟩ : User).creditsBalance ∧
    (handleSubscriptionDeleted
        ⟨3, 7, 0, "professional", "active", some "cus_3", some "sub_3",
         some 1700000000000, none⟩
        ⟨some 3, "canceled", false, 0⟩).2 = [] := by
  refine ⟨?_, ?_⟩ <;> decide

/-- C3 amended: the four ledger operations — debit (`deductCredits`),
refund (`refundCredits`), top-up (`addCredits`) and the rollover grant
(`resetMonthlyCredits` on a free account) — each append exactly one
transaction whose `balanceAfter` equals the account's balance immediately
after the operation; but the subscription-deleted handler, which also
resets the balance, appends no transaction at all. -/
theorem c3_ledger_ops_record_balance (u : User) (amount : Int)
    (description : String) (designId now : Nat)
    (hle : amount ≤ u.creditsBalance) (hfree : u.tier = "free") :
    (∃ r, deductCredits u amount description = .ok r ∧
      r.2.balanceAfter = r.1.creditsBalance) ∧
    (refundCredits u designId amount).2.balanceAfter =
      (refundCredits u designId amount).1.creditsBalance ∧
    (addCredits u amount description).2.balanceAfter =
      (addCredits u amount description).1.creditsBalance ∧
    (∃ r tx, resetMonthlyCredits now u = (r, some tx) ∧
      tx.balanceAfter = r.creditsBalance) ∧
    ∀ s : SubscriptionEvent, (handleSubscriptionDeleted u s).2 = [] := by
  constructor
  · refine ⟨({ u with creditsBalance := u.creditsBalance - amount, creditsUsedThisMonth := u.creditsUsedThisMonth + amount }, { userId := u.id, type := "usage", amount := -amount, balanceAfter := u.creditsBalance - amount, description := description }), ?_, rfl⟩
    simp [deductCredits, not_lt.mpr hle]
  refine ⟨rfl, rfl, ?_, ?_⟩
  · refine ⟨{ u with creditsBalance := FREE_TIER_MONTHLY_CREDITS, creditsUsedThisMonth := 0, monthlyResetDate := some now }, { userId := u.id, type := "monthly_reset", amount := FREE_TIER_MONTHLY_CREDITS, balanceAfter := FREE_TIER_MONTHLY_CREDITS, description := "Monthly credit reset for free tier" }, ?_, rfl⟩
    simp [resetMonthlyCredits, hfree]
  · intro s
    rcases s with ⟨mu, st, c, pe⟩
    cases mu <;> rfl

/-- Witness for C3 amended: concrete evaluation on a free account with
balance 3, amount 1. -/
theorem c3_ledger_ops_record_balance_witness :
    (1 : Int) ≤
        (⟨1, 3, 0, "free", "active", none, none, none, none⟩ :
          User).creditsBalance ∧
    (⟨1, 3, 0, "free", "active", none, none, none, none⟩ : User).tier =
        "free" ∧
    ((∃ r, deductCredits ⟨1, 3, 0, "free", "active", none, none, none, none⟩
          1 "Design generation" = .ok r ∧
        r.2.balanceAfter = r.1.creditsBalance) ∧
      (refundCredits ⟨1, 3, 0, "free", "active", none, none, none, none⟩ 5
          1).2.balanceAfter =
        (refundCredits ⟨1, 3, 0, "free", "active", none, none, none, none⟩ 5
          1).1.creditsBalance ∧
      (addCredits ⟨1, 3, 0, "free", "active", none, none, none, none⟩ 1
          "Design generation").2.balanceAfter =
        (addCredits ⟨1, 3, 0, "free", "active", none, none, none, none⟩ 1
          "Design generation").1.creditsBalance ∧
      (∃ r tx,
        resetMonthlyCredits 1700000000000
            ⟨1, 3, 0, "free", "active", none, none, none, none⟩ =
          (r, some tx) ∧ tx.balanceAfter = r.creditsBalance) ∧
      ∀ s : SubscriptionEvent,
        (handleSubscriptionDeleted
          ⟨1, 3, 0, "free", "active", none, none, none, none⟩ s).2 = []) :=
  ⟨by decide, rfl,
   c3_ledger_ops_record_balance
     ⟨1, 3, 0, "free", "active", none, none, none, none⟩ 1
     "Design generation" 5 1700000000000 (by decide) rfl⟩

/-- Counterexample to C6: `addCredits` (purchased top-up) of 2 credits on
an account with `creditsUsedThisMonth = 5` leaves it at 5 — it is not
decremented to `max 0 (5 - 2) = 3` as the claim asserts for both credit
paths. -/
theorem c6_counterexample :
    (addCredits ⟨4, 1, 5, "free", "active", none, none, none, none⟩ 2
        "Purchased credits").1.creditsUsedThisMonth = 5 ∧
    ¬ (addCredits ⟨4, 1, 5, "free", "active", none, none, none, none⟩ 2
        "Purchased credits").1.creditsUsedThisMonth = max 0 (5 - 2) := by
  refine ⟨?_, ?_⟩ <;> decide

/-- C6 amended: for any non-negative amount both credit paths always
succeed and add the amount to the balance; `refundCredits` decrements
`creditsUsedThisMonth` by the amount floored at zero, while `addCredits`
leaves `creditsUsedThisMonth` unchanged. -/
theorem c6_credit_paths (u : User) (amount : Int) (designId : Nat)
    (description : String) (h : 0 ≤ amount) :
    ((refundCredits u designId amount).1.creditsBalance =
        u.creditsBalance + amount ∧
      (refundCredits u designId amount).1.creditsUsedThisMonth =
        max 0 (u.creditsUsedThisMonth - amount)) ∧
    ((addCredits u amount description).1.creditsBalance =
        u.creditsBalance + amount ∧
      (addCredits u amount description).1.creditsUsedThisMonth =
        u.creditsUsedThisMonth) :=
  ⟨⟨rfl, rfl⟩, rfl, rfl⟩

/-- Witness for C6 amended: refund of 2 on used 5 floors to 3; top-up of 2
leaves used at 5. -/
theorem c6_credit_paths_witness :
    (0 : Int) ≤ 2 ∧
    (((refundCredits ⟨4, 1, 5, "free", "active", none, none, none, none⟩ 9
          2).1.creditsBalance =
        (⟨4, 1, 5, "free", "active", none, none, none, none⟩ :
          User).creditsBalance + 2 ∧
      (refundCredits ⟨4, 1, 5, "free", "active", none, none, none, none⟩ 9
          2).1.creditsUsedThisMonth =
        max 0 ((⟨4, 1, 5, "free", "active", none, none, none, none⟩ :
          User).creditsUsedThisMonth - 2)) ∧
      ((addCredits ⟨4, 1, 5, "free", "active", none, none, none, none⟩ 2
          "Purchased credits").1.creditsBalance =
        (⟨4, 1, 5, "free", "active", none, none, none, none⟩ :
          User).creditsBalance + 2 ∧
      (addCredits ⟨4, 1, 5, "free", "active", none, none, none, none⟩ 2
          "Purchased credits").1.creditsUsedThisMonth =
        (⟨4, 1, 5, "free", "active", none, none, none, none⟩ :
          User).creditsUsedThisMonth)) :=
  ⟨by decide,
   c6_credit_paths ⟨4, 1, 5, "free", "active", none, none, none, none⟩ 2 9
     "Purchased credits" (by decide)⟩

/-- C7: a debit of `n ≤ balance` followed by a refund of `n` returns the
balance to its pre-debit value; the two transactions produced (one per
operation, so exactly two rows) have deltas summing to zero, the debit row
has `balanceAfter = balance - n` and the refund row has
`balanceAfter` equal to the original balance. -/
theorem c7_debit_then_refund (u : User) (n : Int) (designId : Nat)
    (description : String) (h : n ≤ u.creditsBalance) :
    ∃ u₁ t₁, deductCredits u n description = .ok (u₁, t₁) ∧
      (refundCredits u₁ designId n).1.creditsBalance = u.creditsBalance ∧
      t₁.amount + (refundCredits u₁ designId n).2.amount = 0 ∧
      t₁.balanceAfter = u.creditsBalance - n ∧
      (refundCredits u₁ designId n).2.balanceAfter = u.creditsBalance := by
  refine ⟨{ u with creditsBalance := u.creditsBalance - n, creditsUsedThisMonth := u.creditsUsedThisMonth + n }, { userId := u.id, type := "usage", amount := -n, balanceAfter := u.creditsBalance - n, description := description }, ?_, ?_, ?_, rfl, ?_⟩
  · simp [deductCredits, not_lt.mpr h]
  · show u.creditsBalance - n + n = u.creditsBalance
    omega
  · show -n + n = 0
    omega
  · show u.creditsBalance - n + n = u.creditsBalance
    omega

/-- Witness for C7: the spec scenario — balance 3, debit 1, refund 1. -/
theorem c7_debit_then_refund_witness :
    (1 : Int) ≤
        (⟨1, 3, 0, "free", "active", none, none, none, none⟩ :
          User).creditsBalance ∧
    ∃ u₁ t₁,
      deductCredits ⟨1, 3, 0, "free", "active", none, none, none, none⟩ 1
          "generate" = .ok (u₁, t₁) ∧
      (refundCredits u₁ 11 1).1.creditsBalance =
        (⟨1, 3, 0, "free", "active", none, none, none, none⟩ :
          User).creditsBalance ∧
      t₁.amount + (refundCredits u₁ 11 1).2.amount = 0 ∧
      t₁.balanceAfter =
        (⟨1, 3, 0, "free", "active", none, none, none, none⟩ :
          User).creditsBalance - 1 ∧
      (refundCredits u₁ 11 1).2.balanceAfter =
        (⟨1, 3, 0, "free", "active", none, none, none, none⟩ :
          User).creditsBalance :=
  ⟨by decide,
   c7_debit_then_refund ⟨1, 3, 0, "free", "active", none, none, none, none⟩
     1 11 "generate" (by decide)⟩

/-- Applying the same billing event to the `users` row twice leaves the row
exactly as applying it once: every handler writes values computed from the
event payload alone, except the updated-handler's tier and the
failed-payment handler's customer lookup, which are already fixed points
after the first application. -/
theorem processEvent_processEvent (u : User) (e : BillingEvent) :
    processEvent (processEvent u e) e = processEvent u e := by
  cases e with
  | checkoutSessionCompleted s =>
    rcases s with ⟨mu, mt, c, sub⟩
    cases mu <;> cases mt <;> cases sub <;> rfl
  | subscriptionCreated s => rfl
  | subscriptionUpdated s =>
    rcases s with ⟨mu, st, c, pe⟩
    cases mu with
    | none => rfl
    | some uid =>
      simp only [processEvent, handleSubscriptionUpdated]
      by_cases h : st = "canceled" ∨ st = "unpaid"
      · simp [if_pos h]
      · simp [if_neg h]
  | subscriptionDeleted s =>
    rcases s with ⟨mu, st, c, pe⟩
    cases mu <;> rfl
  | invoicePaymentSucceeded invoice => rfl
  | invoicePaymentFailed invoice =>
    rcases invoice with ⟨sub, cust⟩
    cases sub with
    | none => rfl
    | some sid =>
      simp only [processEvent, handleInvoicePaymentFailed]
      by_cases h : u.stripeCustomerId = some cust
      · simp [if_pos h, h]
      · simp [if_neg h, h]
  | unhandled t => rfl

/-- C8: replaying the identical billing event (same payload) against the
Reconciler any number `n ≥ 1` of times yields the same final `users` row —
tier, subscriptionStatus, creditsBalance, Stripe references and
currentPeriodEnd — as applying it exactly once. -/
theorem c8_replay_idempotent (u : User) (e : BillingEvent) (n : Nat)
    (h : 1 ≤ n) : processEventN n u e = processEvent u e := by
  obtain ⟨m, rfl⟩ : ∃ m, n = m + 1 := ⟨n - 1, by omega⟩
  induction m generalizing u with
  | zero => rfl
  | succ k ih =>
    show processEventN (k + 1) (processEvent u e) e = processEvent u e
    rw [ih (processEvent u e) (by omega), processEvent_processEvent]

/-- Witness for C8: replaying a concrete subscription-updated event three
times equals applying it once. -/
theorem c8_replay_idempotent_witness :
    1 ≤ 3 ∧
    processEventN 3 ⟨2, 7, 4, "basic", "active", some "cus_2", some "sub_2", some 1700000000000, none⟩
        (.subscriptionUpdated ⟨some 2, "past_due", false, 1700000500000⟩) =
      processEvent ⟨2, 7, 4, "basic", "active", some "cus_2", some "sub_2", some 1700000000000, none⟩
        (.subscriptionUpdated ⟨some 2, "past_due", false, 1700000500000⟩) :=
  ⟨by decide,
   c8_replay_idempotent
     ⟨2, 7, 4, "basic", "active", some "cus_2", some "sub_2",
      some 1700000000000, none⟩
     (.subscriptionUpdated ⟨some 2, "past_due", false, 1700000500000⟩) 3
     (by decide)⟩

/-- C9: on a free-tier account that is due for a rollover (no recorded
reset, or the last reset at least 30 days old), running
`checkAndResetMonthlyCredits` and then running it again shortly afterwards
(less than 30 days after the first run) grants exactly once: the first run
creates the single `"monthly_reset"` transaction, the second creates none,
and the final balance is the grant amount 3. -/
theorem c9_rollover_not_double_granted (u : User) (now now₂ : Nat)
    (hfree : u.tier = "free")
    (hdue : u.monthlyResetDate = none ∨
      ∃ lastReset, u.monthlyResetDate = some lastReset ∧
        30 ≤ daysSince now lastReset)
    (hrapid : daysSince now₂ now < 30) :
    (checkAndResetMonthlyCredits now u).2 =
      some { userId := u.id, type := "monthly_reset", amount := 3,
             balanceAfter := 3,
             description := "Monthly credit reset for free tier" } ∧
    (checkAndResetMonthlyCredits now₂
        (checkAndResetMonthlyCredits now u).1).2 = none ∧
    (checkAndResetMonthlyCredits now₂
        (checkAndResetMonthlyCredits now u).1).1.creditsBalance = 3 := by
  have h1 : checkAndResetMonthlyCredits now u =
      ({ u with creditsBalance := 3, creditsUsedThisMonth := 0,
                monthlyResetDate := some now },
       some { userId := u.id, type := "monthly_reset", amount := 3,
              balanceAfter := 3,
              description := "Monthly credit reset for free tier" }) := by
    rcases hdue with hnone | ⟨lastReset, hl, hd⟩
    · simp [checkAndResetMonthlyCredits, resetMonthlyCredits, hfree, hnone,
            FREE_TIER_MONTHLY_CREDITS]
    · simp [checkAndResetMonthlyCredits, resetMonthlyCredits, hfree, hl, hd,
            FREE_TIER_MONTHLY_CREDITS]
  rw [h1]
  refine ⟨rfl, ?_, ?_⟩ <;>
    simp [checkAndResetMonthlyCredits, hfree, Nat.not_le.mpr hrapid]

/-- Witness for C9: a free account with no recorded reset, both calls at
the same instant. -/
theorem c9_rollover_not_double_granted_witness :
    (⟨1, 0, 3, "free", "active", none, none, none, none⟩ : User).tier =
        "free" ∧
    ((⟨1, 0, 3, "free", "active", none, none, none, none⟩ :
        User).monthlyResetDate = none ∨
      ∃ lastReset,
        (⟨1, 0, 3, "free", "active", none, none, none, none⟩ :
          User).monthlyResetDate = some lastReset ∧
        30 ≤ daysSince 1700000000000 lastReset) ∧
    daysSince 1700000000000 1700000000000 < 30 ∧
    ((checkAndResetMonthlyCredits 1700000000000
        ⟨1, 0, 3, "free", "active", none, none, none, none⟩).2 =
      some { userId := 1, type := "monthly_reset", amount := 3,
             balanceAfter := 3,
             description := "Monthly credit reset for free tier" } ∧
     (checkAndResetMonthlyCredits 1700000000000
        (checkAndResetMonthlyCredits 1700000000000
          ⟨1, 0, 3, "free", "active", none, none, none, none⟩).1).2 = none ∧
     (checkAndResetMonthlyCredits 1700000000000
        (checkAndResetMonthlyCredits 1700000000000
          ⟨1, 0, 3, "free", "active", none, none, none, none⟩).1).1.creditsBalance
       = 3) :=
  ⟨rfl, Or.inl rfl, by decide,
   c9_rollover_not_double_granted
     ⟨1, 0, 3, "free", "active", none, none, none, none⟩ 1700000000000
     1700000000000 rfl (Or.inl rfl) (by decide)⟩

end Aify
